import Mathlib

/-!
Shallow embedding of the routing/proxy core of the `ai-protocol-mcp`
repository, and proofs about it.

Python strings are modelled as `List Char`; Python dicts that the code
iterates over are modelled as association lists built by mapping over the
key list (one entry per key, in iteration order).  Effects of the
downstream MCP backends (process launch, ping, `list_tools`, `call_tool`)
and of the OpenAI completion service are modelled as oracle functions
returning `Except` values: `.error msg` stands for a raised exception whose
`str(e)` is `msg`.  Fields whose values are wall-clock times or
floating-point display artifacts (`timestamp`, `response_time_ms`, and the
one-decimal rounding of `health_percentage`) are outside the claims and are
not modelled; `health_percentage` itself is modelled as an exact rational
with the source's zero-backends guard.
-/

namespace MCPProxy

/-! ## Static configuration (mcp_proxy_server/config.py) -/

/-- The keys of `MCP_SERVER_CONFIGS` in `mcp_proxy_server/config.py`:
the registered backend ids, in declaration order. -/
def mcpServerIds : List (List Char) :=
  ["github".data, "filesystem".data, "atlassian".data]

/-- `PROXY_CONFIG["default_server"]` (also the fallback of
`PROXY_CONFIG.get("default_server", "filesystem")` in `MCPProxyRouter.__init__`). -/
def defaultServer : List Char := "filesystem".data

/-- `ROUTING_CONFIG["prefix_delimiter"]`, the one-character string `"_"`;
modelled as the character, so Python's substring test `delimiter in tool_name`
becomes list membership and `tool_name.split(delimiter)[0]` becomes
`splitHead`. -/
def delim : Char := '_'

/-! ## String operations used by the router -/

/-- `s.split(d)[0]` for a one-character separator `d`: the characters before
the first occurrence of `d` (all of `s` when `d` does not occur). -/
def splitHead (d : Char) : List Char → List Char
  | [] => []
  | c :: cs => if c = d then [] else c :: splitHead d cs

/-- The characters after the first occurrence of `d` (irrelevant default `[]`
when `d` does not occur); companion of `splitHead`. -/
def splitRest (d : Char) : List Char → List Char
  | [] => []
  | c :: cs => if c = d then cs else splitRest d cs

/-! ## MCPProxyRouter (mcp_proxy_server/proxy_server.py, lines 23-75) -/

/-- `MCPProxyRouter._route_by_prefix` (lines 53-67): if the delimiter occurs
in the tool name and the substring before its first occurrence is a key of
`MCP_SERVER_CONFIGS`, route there; otherwise fall back to the default
server.  The logging calls are side-effect free and not modelled. -/
def routeByPrefixStrategy (toolName : List Char) : List Char :=
  if delim ∈ toolName then
    let p := splitHead delim toolName
    if p ∈ mcpServerIds then p else defaultServer
  else defaultServer

/-- `MCPProxyRouter.route_tool_call` (lines 31-38): dispatches on the
configured strategy.  `self.strategy = ROUTING_CONFIG.get("routing_strategy",
"prefix")` resolves to `"prefix"` (the key is absent from `ROUTING_CONFIG`),
so the call always takes the `_route_by_prefix` branch and the `headers`
argument is unused. -/
def routerRoute (toolName : List Char) (headers : List (List Char × List Char)) :
    List Char :=
  routeByPrefixStrategy toolName

/-! ## Prefix stripping inside the route_tool_call tool (lines 128-132) -/

/-- Lines 129-132 of `route_tool_call`: the name actually handed to the
downstream backend, namely `tool_name` with the leading
`f"{target_server}_"` removed when present (`tool_name.startswith` /
slicing by `len(f"{target_server}_")`). -/
def actualToolName (targetServer toolName : List Char) : List Char :=
  if (targetServer ++ [delim]).isPrefixOf toolName then
    toolName.drop (targetServer ++ [delim]).length
  else toolName

/-! ## The route_tool_call tool (proxy_server.py, lines 114-162)

The downstream call (`StdioTransport`/`Client` construction, `async with`,
`call_tool`) is modelled by an oracle
`call : server -> toolName -> arguments -> Except msg payload`; `.error msg`
stands for any exception raised inside the `try` block, with `str(e) = msg`.
Arguments dicts are opaque to the proxy and modelled as association lists. -/

/-- Argument mappings (`Dict[str, Any]`), opaque to routing. -/
abbrev ArgsDict := List (List Char × List Char)

/-- Python dict access `d[k]` on an association-list-modelled dict (first
entry wins; the dicts modelled here carry one entry per key). -/
def dictLookup {β : Type} (key : List Char) : List (List Char × β) → Option β
  | [] => none
  | (k, v) :: rest => if k = key then some v else dictLookup key rest

/-- The dictionary `route_tool_call` returns: one constructor per `return`
statement of the source, each carrying the fields of the returned dict. -/
inductive ToolCallResult (α : Type) where
  /-- Lines 120-123: no client for the target; dict with `error` and
  `available_servers`. -/
  | noClient (error : List Char) (availableServers : List (List Char))
  /-- Lines 147-151: dict with `server`, `tool` (the stripped name) and
  `result`. -/
  | ok (server tool : List Char) (result : α)
  /-- Lines 155-162: the `except` branch; dict with `error`, `server` and
  `tool` (the original, unstripped name). -/
  | failed (error : List Char) (server tool : List Char)
deriving DecidableEq

/-- Line 121: `f"No client available for server: {target_server}"`. -/
def noClientMsg (targetServer : List Char) : List Char :=
  "No client available for server: ".data ++ targetServer

/-- Line 156: `f"Error calling tool '{tool_name}' on server '{target_server}': {str(e)}"`. -/
def callErrorMsg (toolName targetServer excMsg : List Char) : List Char :=
  "Error calling tool '".data ++ toolName ++ "' on server '".data ++
    targetServer ++ "': ".data ++ excMsg

/-- Line 153: `f"Server config not found: {target_server}"`, the message of
the exception raised when the routed target has a client but no entry in
`MCP_SERVER_CONFIGS` (dead in the shipped configuration, where every client
comes from a config entry; modelled faithfully). -/
def configNotFoundMsg (targetServer : List Char) : List Char :=
  "Server config not found: ".data ++ targetServer

/-- `route_tool_call` (lines 114-162).  `clients` is
`client_manager.clients`' key list; `call s t a` is the outcome of
`actual_client.call_tool(t, a)` against backend `s`. -/
def routeToolCall {α : Type} (clients : List (List Char))
    (call : List Char → List Char → ArgsDict → Except (List Char) α)
    (toolName : List Char) (arguments : ArgsDict)
    (headers : List (List Char × List Char)) : ToolCallResult α :=
  let targetServer := routerRoute toolName headers
  if targetServer ∈ clients then
    let actual := actualToolName targetServer toolName
    if targetServer ∈ mcpServerIds then
      match call targetServer actual arguments with
      | .ok r => .ok targetServer actual r
      | .error e => .failed (callErrorMsg toolName targetServer e) targetServer toolName
    else
      .failed (callErrorMsg toolName targetServer (configNotFoundMsg targetServer))
        targetServer toolName
  else
    .noClient (noClientMsg targetServer) clients

/-! ## The route_by_prefix tool (proxy_server.py, lines 214-261) -/

/-- Line 217 of the `route_by_prefix` tool: `f"{tool_prefix}_{tool_suffix}"`. -/
def composedToolName (toolPre toolSuffix : List Char) : List Char :=
  toolPre ++ delim :: toolSuffix

/-- Line 255: the error message of the `route_by_prefix` tool's `except`
branch, built from the composed full name. -/
def manualCallErrorMsg (fullName targetServer excMsg : List Char) : List Char :=
  callErrorMsg fullName targetServer excMsg

/-- The `route_by_prefix` tool (lines 214-261): composes the full name,
routes it, and forwards the **full** name to `call_tool` (line 244); the
success dict's `tool` field is also the full name (line 249).  Unlike
`route_tool_call` it performs no prefix stripping. -/
def routeByPrefixTool {α : Type} (clients : List (List Char))
    (call : List Char → List Char → ArgsDict → Except (List Char) α)
    (toolPre toolSuffix : List Char) (arguments : ArgsDict) : ToolCallResult α :=
  let fullName := composedToolName toolPre toolSuffix
  let targetServer := routerRoute fullName []
  if targetServer ∈ clients then
    if targetServer ∈ mcpServerIds then
      match call targetServer fullName arguments with
      | .ok r => .ok targetServer fullName r
      | .error e => .failed (manualCallErrorMsg fullName targetServer e) targetServer fullName
    else
      .failed (manualCallErrorMsg fullName targetServer (configNotFoundMsg targetServer))
        targetServer fullName
  else
    .noClient (noClientMsg targetServer) clients

/-! ## Capability aggregation (list_all_tools, lines 164-188; get_methods,
lines 273-321)

Per backend, `list_tools` either yields a list of tool records or raises;
modelled by an oracle `listTools : server -> Except msg (List ToolInfo)`. -/

/-- The fields of a downstream tool record that the source reads
(`tool.name`, `tool.description`, `tool.inputSchema`); the schema is an
opaque blob, kept as its textual form. -/
structure ToolInfo where
  name : List Char
  description : List Char
  inputSchema : List Char
deriving DecidableEq

/-- One value of the `all_tools` dict built by `list_all_tools`: a list of
tool names on success (line 181), the string `f"Error: {str(e)}"` on
failure (line 186). -/
inductive ListToolsEntry where
  | names (ns : List (List Char))
  | errorText (msg : List Char)
deriving DecidableEq

/-- The entry `list_all_tools` stores for one backend, as a function of that
backend's own `list_tools` outcome alone. -/
def listToolsEntryOf (outcome : Except (List Char) (List ToolInfo)) : ListToolsEntry :=
  match outcome with
  | .ok ts => .names (ts.map ToolInfo.name)
  | .error e => .errorText ("Error: ".data ++ e)

/-- `list_all_tools` (lines 164-188): one dict entry per client, built
independently per backend. -/
def listAllTools (clients : List (List Char))
    (listTools : List Char → Except (List Char) (List ToolInfo)) :
    List (List Char × ListToolsEntry) :=
  clients.map fun s => (s, listToolsEntryOf (listTools s))

/-- One value of the `aggregated_methods` dict built by `get_methods`:
`methods`, `count` and `status` fields (lines 301-305 on success,
311-315 on failure). -/
structure MethodsEntry where
  methods : List ToolInfo
  count : Nat
  status : List Char
deriving DecidableEq

/-- The entry `get_methods` stores for one backend, as a function of that
backend's own `list_tools` outcome alone. -/
def methodsEntryOf (outcome : Except (List Char) (List ToolInfo)) : MethodsEntry :=
  match outcome with
  | .ok ts => ⟨ts, ts.length, "✅ Available".data⟩
  | .error e => ⟨[], 0, "❌ Error: ".data ++ e⟩

/-- The dict `get_methods` returns (lines 317-321). -/
structure GetMethodsResult where
  servers : List (List Char × MethodsEntry)
  totalServers : Nat
  totalMethods : Nat
deriving DecidableEq

/-- `get_methods` (lines 273-321). -/
def getMethods (clients : List (List Char))
    (listTools : List Char → Except (List Char) (List ToolInfo)) :
    GetMethodsResult :=
  let aggregated := clients.map fun s => (s, methodsEntryOf (listTools s))
  { servers := aggregated
    totalServers := aggregated.length
    totalMethods := (aggregated.map (fun p => p.2.count)).sum }

/-! ## health_check (proxy_server.py, lines 336-394)

Per backend, the `try` block pings and lists tools; modelled by an oracle
`probe : server -> Except msg Unit` (`.ok` = both calls succeeded).  The
per-entry `response_time_ms`, `tools_count` and `transport` fields and the
proxy's own banner are not read by the summary and are not modelled. -/

/-- `Except` outcome test (the backend counted as reachable). -/
def isOkE {ε α : Type} : Except ε α → Bool
  | .ok _ => true
  | .error _ => false

/-- The `status` string of one `downstream_servers` entry: `"✅ Healthy"`
(line 368) or `f"❌ Unhealthy: {str(e)}"` (line 376). -/
def healthStatusOf (outcome : Except (List Char) Unit) : List Char :=
  match outcome with
  | .ok _ => "✅ Healthy".data
  | .error e => "❌ Unhealthy: ".data ++ e

/-- The `downstream_servers` dict: one entry per client, carrying its status
string. -/
def downstreamStatuses (servers : List (List Char))
    (probe : List Char → Except (List Char) Unit) :
    List (List Char × List Char) :=
  servers.map fun s => (s, healthStatusOf (probe s))

/-- Lines 383-384: `sum(1 for server in ... if "✅" in server["status"])` —
the count of entries whose status string contains the check mark. -/
def healthyServersCount (statuses : List (List Char × List Char)) : Nat :=
  statuses.countP fun p => decide ('✅' ∈ p.2)

/-- Line 391: the `overall_status` string as a function of the healthy and
total counts. -/
def overallStatusOf (healthy total : Nat) : List Char :=
  if healthy = total then "✅ Healthy".data
  else if 0 < healthy then "⚠️ Partial".data
  else "❌ Unhealthy".data

/-- The `summary` dict of `health_check` (lines 387-392).
`health_percentage` is the exact rational before the one-decimal display
rounding, with the source's `if total_servers > 0 ... else 0` guard. -/
structure HealthSummary where
  healthyServers : Nat
  totalServers : Nat
  healthPercentage : ℚ
  overallStatus : List Char
deriving DecidableEq

/-- `health_check`'s summary computation (lines 382-392). -/
def healthSummary (servers : List (List Char))
    (probe : List Char → Except (List Char) Unit) : HealthSummary :=
  let statuses := downstreamStatuses servers probe
  let healthy := healthyServersCount statuses
  let total := statuses.length
  { healthyServers := healthy
    totalServers := total
    healthPercentage := if 0 < total then (healthy * 100 : ℚ) / total else 0
    overallStatus := overallStatusOf healthy total }

/-! ## The registered tool surface (proxy_server.py, lines 114-394)

Each `@proxy_server.tool` decorator registers one operation on the FastMCP
proxy; this is the proxy's whole public operation surface. -/

/-- The names of the functions decorated with `@proxy_server.tool`, in
source order (lines 114, 164, 190, 214, 263, 273, 323, 336). -/
def registeredProxyTools : List (List Char) :=
  ["route_tool_call".data, "list_all_tools".data, "get_server_status".data,
   "route_by_prefix".data, "list_proxy_config".data, "get_methods".data,
   "test_routing".data, "health_check".data]

/-- The four operations the specification names as the whole public
interface, under their source names: `invoke` = `route_tool_call`,
`listCapabilities` = `list_all_tools`, `status` = `get_server_status`,
`config` = `list_proxy_config`. -/
def specFourOperations : List (List Char) :=
  ["route_tool_call".data, "list_all_tools".data, "get_server_status".data,
   "list_proxy_config".data]

/-! ## LLMOrchestrator (src/llm_orchestrator_with_openai.py)

The OpenAI completion calls are modelled as oracles returning
`Except msg reply` (`.error` = the API call raised); the downstream MCP
calls as in the proxy model. -/

/-- The keys of the orchestrator's `server_configs` (the `configs` list,
lines 24-77): github, filesystem, atlassian. -/
def orchestratorServerIds : List (List Char) :=
  ["github".data, "filesystem".data, "atlassian".data]

/-- The hardcoded fallback server of `ask_llm_to_choose_server`
(lines 214 and 218). -/
def fallbackServer : List Char := "filesystem".data

/-- Python `str.lower()` restricted to the characters exercised here
(ASCII-wise `Char.toLower`). -/
def pyLower (s : List Char) : List Char := s.map Char.toLower

/-- Whitespace stripped by Python `str.strip()` (the kinds occurring in
completions: space, tab, newline, carriage return). -/
def isStripSpace (c : Char) : Bool :=
  c = ' ' || c = '\t' || c = '\n' || c = '\r'

/-- Python `str.strip()`. -/
def pyStrip (s : List Char) : List Char :=
  ((s.dropWhile isStripSpace).reverse.dropWhile isStripSpace).reverse

/-- `ask_llm_to_choose_server` (lines 182-218): the oracle reply is
normalized by `.strip().lower()` and validated against
`available_servers`; an invalid choice (line 214) or a raised API error
(line 218) falls back to `"filesystem"`, without a second oracle call. -/
def chooseServer (oracleReply : Except (List Char) (List Char))
    (availableServers : List (List Char)) : List Char :=
  match oracleReply with
  | .error _ => fallbackServer
  | .ok reply =>
    let chosen := pyLower (pyStrip reply)
    if chosen ∈ availableServers then chosen else fallbackServer

/-- `ask_llm_to_choose_tool` (lines 220-264): the stripped reply is looked
up among the advertised tools (lines 255-257); when absent, the first tool
is returned, `none` when the list is empty (lines 260, 264) — again without
a second oracle call. -/
def chooseTool (oracleReply : Except (List Char) (List Char))
    (availableTools : List ToolInfo) : Option ToolInfo :=
  match oracleReply with
  | .error _ => availableTools.head?
  | .ok reply =>
    let chosenName := pyStrip reply
    match availableTools.find? (fun t => t.name = chosenName) with
    | some t => some t
    | none => availableTools.head?

/-- `ask_llm_for_arguments` (lines 266-304): the oracle either raises
(`.error`), replies with non-JSON text (`.ok none`), or replies with a
parsed object (`.ok (some args)`); the first two cases yield `{}`. -/
def chooseArguments (oracleReply : Except Unit (Option ArgsDict)) : ArgsDict :=
  match oracleReply with
  | .ok (some args) => args
  | .ok none => []
  | .error _ => []

/-- The `status` string of one `discover_servers` entry: `"✅ Available"`
(line 110) or `f"❌ Unavailable: {str(e)}"` (line 115). -/
def discoverStatusOf (outcome : Except (List Char) Unit) : List Char :=
  match outcome with
  | .ok _ => "✅ Available".data
  | .error e => "❌ Unavailable: ".data ++ e

/-- The dict `discover_servers` returns (lines 101-124). -/
structure DiscoverResult where
  servers : List (List Char × List Char)
  totalServers : Nat
  availableServers : List (List Char)
deriving DecidableEq

/-- `discover_servers` (lines 101-124): per-client ping statuses, and the
`available_servers` list of names whose status contains `"✅"`
(lines 122-123). -/
def discoverServers (clients : List (List Char))
    (ping : List Char → Except (List Char) Unit) : DiscoverResult :=
  let results := clients.map fun s => (s, discoverStatusOf (ping s))
  { servers := results
    totalServers := results.length
    availableServers := (results.filter fun p => decide ('✅' ∈ p.2)).map Prod.fst }

/-- `get_server_tools` (lines 126-154) as an `Except`: the source returns a
dict with an `error` key in the two failure cases, which
`process_user_request` detects via `"error" in server_tools`. -/
def getServerTools (clients : List (List Char))
    (listTools : List Char → Except (List Char) (List ToolInfo))
    (serverName : List Char) : Except (List Char) (List ToolInfo) :=
  if serverName ∈ clients then
    match listTools serverName with
    | .ok ts => .ok ts
    | .error e =>
      .error ("Failed to get tools from ".data ++ serverName ++ ": ".data ++ e)
  else .error ("Server '".data ++ serverName ++ "' not available".data)

/-- The dict `call_server_tool` returns (lines 156-180): `success=True`
with the payload, or `success=False` with an error message. -/
inductive CallToolResult (α : Type) where
  | ok (server tool : List Char) (result : α)
  | failed (error : List Char) (server tool : List Char)
deriving DecidableEq

/-- `call_server_tool` (lines 156-180). -/
def callServerTool {α : Type} (clients : List (List Char))
    (call : List Char → List Char → ArgsDict → Except (List Char) α)
    (serverName toolName : List Char) (arguments : ArgsDict) :
    CallToolResult α :=
  if serverName ∈ clients then
    match call serverName toolName arguments with
    | .ok r => .ok serverName toolName r
    | .error e =>
      .failed ("Failed to call ".data ++ toolName ++ " on ".data ++ serverName
        ++ ": ".data ++ e) serverName toolName
  else .failed ("Server '".data ++ serverName ++ "' not available".data)
    serverName toolName

/-- The value `process_user_request` returns: the early-exit error dicts, or
the success dict of line 348 (whose workflow fields beyond the executed
call are reconstructible from the oracles). -/
inductive ProcessResult (α : Type) where
  | error (msg : List Char)
  | ok (server tool : List Char) (arguments : ArgsDict) (execution : CallToolResult α)
deriving DecidableEq

/-- `process_user_request` (lines 306-364), with an explicit trace of the
downstream tool invocations it performs (`call_server_tool` calls, step 6):
the pair's second component lists each invoked (server, tool, arguments).
The per-step oracles stand for the LLM and backend effects. -/
def processUserRequest {α : Type} (clients : List (List Char))
    (ping : List Char → Except (List Char) Unit)
    (serverOracle : Except (List Char) (List Char))
    (listTools : List Char → Except (List Char) (List ToolInfo))
    (toolOracle : Except (List Char) (List Char))
    (argsOracle : Except Unit (Option ArgsDict))
    (call : List Char → List Char → ArgsDict → Except (List Char) α) :
    ProcessResult α × List (List Char × List Char × ArgsDict) :=
  let info := discoverServers clients ping
  if info.availableServers = [] then
    (.error "No servers available".data, [])
  else
    let chosenServer := chooseServer serverOracle info.availableServers
    match getServerTools clients listTools chosenServer with
    | .error e =>
      (.error ("Failed to get tools from ".data ++ chosenServer ++ ": ".data ++ e), [])
    | .ok availableTools =>
      if availableTools = [] then
        (.error ("No tools available on ".data ++ chosenServer), [])
      else
        match chooseTool toolOracle availableTools with
        | none => (.error "LLM failed to choose a tool".data, [])
        | some chosenTool =>
          let arguments := chooseArguments argsOracle
          let execution := callServerTool clients call chosenServer chosenTool.name arguments
          (.ok chosenServer chosenTool.name arguments execution,
            [(chosenServer, chosenTool.name, arguments)])

/-! ## Concrete per-backend outcome assignments

Closed scenarios used to instantiate the theorems below on concrete
inputs. -/

/-- Scenario: the `github` backend's `list_tools` raises, the other
backends advertise one tool. -/
def failingGithubListTools : List Char → Except (List Char) (List ToolInfo) :=
  fun s => if s = "github".data then Except.error "boom".data
    else Except.ok [⟨"read_file".data, "reads".data, "{}".data⟩]

/-- Scenario: every probe raises, with an exception text containing the
check-mark character that the health counters match on. -/
def spoofProbe : List Char → Except (List Char) Unit :=
  fun _ => Except.error "✅ spoof".data

/-- Scenario: only the `filesystem` backend answers its probe. -/
def partialProbe : List Char → Except (List Char) Unit :=
  fun s => if s = "filesystem".data then Except.ok ()
    else Except.error "ping timed out".data

/-- Scenario: every backend fails discovery with a plain connection error. -/
def allDownPing : List Char → Except (List Char) Unit :=
  fun _ => Except.error "connection refused".data

end MCPProxy

namespace MCPProxy

/-! ## Lemmas about splitting at the first delimiter -/

theorem splitHead_not_mem (d : Char) : ∀ n : List Char, d ∉ splitHead d n := by
  intro n
  induction n with
  | nil => simp [splitHead]
  | cons c cs ih =>
    by_cases h : c = d
    · simp [splitHead, h]
    · simp only [splitHead, if_neg h, List.mem_cons, not_or]
      exact ⟨fun hcd => h hcd.symm, ih⟩

theorem splitHead_append_splitRest (d : Char) :
    ∀ n : List Char, d ∈ n → n = splitHead d n ++ d :: splitRest d n := by
  intro n
  induction n with
  | nil => intro h; cases h
  | cons c cs ih =>
    intro h
    by_cases hc : c = d
    · subst hc; simp [splitHead, splitRest]
    · have hd : d ∈ cs := by
        cases h with
        | head => exact absurd rfl hc
        | tail _ h' => exact h'
      simp only [splitHead, splitRest, if_neg hc]
      rw [List.cons_append]
      exact congrArg (c :: ·) (ih hd)

/-! ## General helper lemmas -/

theorem append_ne_nil_left {l m : List Char} (h : l ≠ []) : l ++ m ≠ [] := by
  cases l with
  | nil => exact absurd rfl h
  | cons a l => simp

theorem noClientMsg_ne_nil (s : List Char) : noClientMsg s ≠ [] :=
  append_ne_nil_left (by decide)

theorem callErrorMsg_ne_nil (t s e : List Char) : callErrorMsg t s e ≠ [] :=
  append_ne_nil_left (append_ne_nil_left (append_ne_nil_left
    (append_ne_nil_left (append_ne_nil_left (by decide)))))

theorem dictLookup_map_entry {β : Type} (entryOf : List Char → β)
    (keys : List (List Char)) (s : List Char) (hs : s ∈ keys) :
    dictLookup s (keys.map fun c => (c, entryOf c)) = some (entryOf s) := by
  induction keys with
  | nil => cases hs
  | cons c cs ih =>
    simp only [List.map_cons, dictLookup]
    by_cases hc : c = s
    · subst hc; simp
    · rw [if_neg hc]
      refine ih ?_
      cases hs with
      | head => exact absurd rfl hc
      | tail _ h => exact h

/-! ## C1 -/

/-- C1: a tool name that contains the configured delimiter and whose
substring before the first delimiter occurrence is a registered backend id
`p` is routed to `p`, and the operation name `route_tool_call` forwards to
that backend is the tool name with the leading `p`-plus-delimiter removed
exactly once (prepending it back recovers the original name). -/
theorem prefixRoutingResolvesAndStripsOnce (n p : List Char)
    (headers : List (List Char × List Char))
    (hdelim : delim ∈ n) (hpre : splitHead delim n = p) (hreg : p ∈ mcpServerIds) :
    routerRoute n headers = p
    ∧ actualToolName p n = splitRest delim n
    ∧ p ++ delim :: actualToolName p n = n := by
  have hdec : n = (p ++ [delim]) ++ splitRest delim n := by
    rw [List.append_assoc, List.singleton_append, ← hpre]
    exact splitHead_append_splitRest delim n hdelim
  have hroute : routerRoute n headers = p := by
    unfold routerRoute routeByPrefixStrategy
    rw [if_pos hdelim]
    simp only [hpre, if_pos hreg]
  have hstrip : actualToolName p n = splitRest delim n := by
    unfold actualToolName
    have hpref : (p ++ [delim]).isPrefixOf n = true := by
      rw [List.isPrefixOf_iff_prefix, hdec]
      exact List.prefix_append _ _
    rw [if_pos hpref]
    conv_lhs => rw [hdec]
    exact List.drop_left _ _
  refine ⟨hroute, hstrip, ?_⟩
  rw [hstrip, ← List.singleton_append, ← List.append_assoc]
  exact hdec.symm

/-- C1 witness: `"github_create_issue"` routes to `"github"` and the
forwarded native operation is `"create_issue"`. -/
theorem prefixRoutingResolvesAndStripsOnceWitness :
    routerRoute "github_create_issue".data [] = "github".data
    ∧ actualToolName "github".data "github_create_issue".data
        = splitRest delim "github_create_issue".data
    ∧ "github".data ++ delim :: actualToolName "github".data "github_create_issue".data
        = "github_create_issue".data :=
  prefixRoutingResolvesAndStripsOnce "github_create_issue".data "github".data []
    (by decide) (by decide) (by decide)

/-! ## C3 -/

/-- C3: a tool name without the delimiter, or whose substring before the
first delimiter is not a registered backend id, routes to the configured
default backend; and routing is total — it always yields a registered
backend id, never a rejection. -/
theorem unknownOrNoDelimiterRoutesToDefault (n : List Char)
    (headers : List (List Char × List Char))
    (h : delim ∉ n ∨ splitHead delim n ∉ mcpServerIds) :
    routerRoute n headers = defaultServer
    ∧ routerRoute n headers ∈ mcpServerIds := by
  have hroute : routerRoute n headers = defaultServer := by
    unfold routerRoute routeByPrefixStrategy
    rcases h with h | h
    · rw [if_neg h]
    · by_cases hd : delim ∈ n
      · rw [if_pos hd]
        simp only [if_neg h]
      · rw [if_neg hd]
  refine ⟨hroute, ?_⟩
  rw [hroute]
  decide

/-- C3 witness: `"Z_list"` (unknown backend id before the delimiter) and
`"foo"` (no delimiter) both route to the default backend. -/
theorem unknownOrNoDelimiterRoutesToDefaultWitness :
    (routerRoute "Z_list".data [] = defaultServer
      ∧ routerRoute "Z_list".data [] ∈ mcpServerIds)
    ∧ (routerRoute "foo".data [] = defaultServer
      ∧ routerRoute "foo".data [] ∈ mcpServerIds) :=
  ⟨unknownOrNoDelimiterRoutesToDefault "Z_list".data [] (Or.inr (by decide)),
   unknownOrNoDelimiterRoutesToDefault "foo".data [] (Or.inl (by decide))⟩

/-! ## C2 -/

/-- C2: for every tool name, arguments mapping, headers mapping, client set
and downstream behaviour — including an unreachable backend (`call`
returning `.error`) and a missing client — `route_tool_call` returns a
result value: either the success dict, or a failure dict whose error
description is populated (nonempty). -/
theorem routeToolCallAlwaysReturnsResult {α : Type} (clients : List (List Char))
    (call : List Char → List Char → ArgsDict → Except (List Char) α)
    (toolName : List Char) (arguments : ArgsDict)
    (headers : List (List Char × List Char)) :
    (∃ s t r, routeToolCall clients call toolName arguments headers
        = ToolCallResult.ok s t r)
    ∨ (∃ msg s t, routeToolCall clients call toolName arguments headers
        = ToolCallResult.failed msg s t ∧ msg ≠ [])
    ∨ (∃ msg a, routeToolCall clients call toolName arguments headers
        = ToolCallResult.noClient msg a ∧ msg ≠ []) := by
  by_cases h1 : routerRoute toolName headers ∈ clients
  · by_cases h2 : routerRoute toolName headers ∈ mcpServerIds
    · cases hc : call (routerRoute toolName headers)
        (actualToolName (routerRoute toolName headers) toolName) arguments with
      | ok r =>
        refine Or.inl ⟨routerRoute toolName headers,
          actualToolName (routerRoute toolName headers) toolName, r, ?_⟩
        simp only [routeToolCall, if_pos h1, if_pos h2, hc]
      | error e =>
        refine Or.inr (Or.inl
          ⟨callErrorMsg toolName (routerRoute toolName headers) e,
           routerRoute toolName headers, toolName, ?_, ?_⟩)
        · simp only [routeToolCall, if_pos h1, if_pos h2, hc]
        · exact callErrorMsg_ne_nil _ _ _
    · refine Or.inr (Or.inl
        ⟨callErrorMsg toolName (routerRoute toolName headers)
           (configNotFoundMsg (routerRoute toolName headers)),
         routerRoute toolName headers, toolName, ?_, ?_⟩)
      · simp only [routeToolCall, if_pos h1, if_neg h2]
      · exact callErrorMsg_ne_nil _ _ _
  · refine Or.inr (Or.inr ⟨noClientMsg (routerRoute toolName headers), clients, ?_, ?_⟩)
    · simp only [routeToolCall, if_neg h1]
    · exact noClientMsg_ne_nil _

/-! ## C6 -/

/-- C6 (code bug, evaluated at the failing input): the `route_by_prefix`
tool at `tool_prefix = "github"`, `tool_suffix = "create_issue"` routes to
the `github` backend but hands the downstream `call_tool` the composed
prefixed name `"github_create_issue"` — recorded here by a `call` oracle
that echoes the operation name it receives — whereas the backend's native
name (what `route_tool_call` would forward, and what the claim requires) is
`"create_issue"` with the routing prefix stripped. -/
theorem routeByPrefixToolForwardsPrefixedName :
    routeByPrefixTool mcpServerIds (fun _ t _ => Except.ok t) "github".data
        "create_issue".data []
      = ToolCallResult.ok "github".data "github_create_issue".data
          "github_create_issue".data
    ∧ actualToolName "github".data "github_create_issue".data = "create_issue".data
    ∧ "github_create_issue".data ≠ "create_issue".data := by
  decide

/-! ## C4 -/

/-- C4: for any client set and any per-backend `list_tools` outcomes, both
aggregation tools return one entry per configured backend (exactly N), and
the entry of each backend `s` is a function of that backend's own outcome
alone (so the failures of others cannot affect it): an explicit error entry
when `s` failed, its capability list when `s` succeeded. -/
theorem aggregationIsolatesPerBackendFailures (clients : List (List Char))
    (listTools : List Char → Except (List Char) (List ToolInfo))
    (s : List Char) (hs : s ∈ clients) :
    (listAllTools clients listTools).length = clients.length
    ∧ (getMethods clients listTools).servers.length = clients.length
    ∧ (getMethods clients listTools).totalServers = clients.length
    ∧ dictLookup s (listAllTools clients listTools)
        = some (listToolsEntryOf (listTools s))
    ∧ dictLookup s (getMethods clients listTools).servers
        = some (methodsEntryOf (listTools s))
    ∧ (∀ e, listTools s = .error e →
        listToolsEntryOf (listTools s) = ListToolsEntry.errorText ("Error: ".data ++ e)
        ∧ methodsEntryOf (listTools s) = MethodsEntry.mk [] 0 ("❌ Error: ".data ++ e))
    ∧ (∀ ts, listTools s = .ok ts →
        listToolsEntryOf (listTools s) = ListToolsEntry.names (ts.map ToolInfo.name)
        ∧ methodsEntryOf (listTools s)
            = MethodsEntry.mk ts ts.length "✅ Available".data) := by
  refine ⟨List.length_map _ _, List.length_map _ _, List.length_map _ _,
    dictLookup_map_entry _ clients s hs, dictLookup_map_entry _ clients s hs,
    ?_, ?_⟩
  · intro e he
    rw [he]
    exact ⟨rfl, rfl⟩
  · intro ts hts
    rw [hts]
    exact ⟨rfl, rfl⟩

/-- C4 witness: with the three configured backends, `github` failing and the
other two succeeding, both aggregates have three entries and the `github`
entry carries the explicit error. -/
theorem aggregationIsolatesPerBackendFailuresWitness :
    (listAllTools mcpServerIds failingGithubListTools).length = mcpServerIds.length
    ∧ (getMethods mcpServerIds failingGithubListTools).servers.length
        = mcpServerIds.length
    ∧ (getMethods mcpServerIds failingGithubListTools).totalServers
        = mcpServerIds.length
    ∧ dictLookup "github".data (listAllTools mcpServerIds failingGithubListTools)
        = some (listToolsEntryOf (failingGithubListTools "github".data))
    ∧ dictLookup "github".data (getMethods mcpServerIds failingGithubListTools).servers
        = some (methodsEntryOf (failingGithubListTools "github".data))
    ∧ (∀ e, failingGithubListTools "github".data = .error e →
        listToolsEntryOf (failingGithubListTools "github".data)
            = ListToolsEntry.errorText ("Error: ".data ++ e)
        ∧ methodsEntryOf (failingGithubListTools "github".data)
            = MethodsEntry.mk [] 0 ("❌ Error: ".data ++ e))
    ∧ (∀ ts, failingGithubListTools "github".data = .ok ts →
        listToolsEntryOf (failingGithubListTools "github".data)
            = ListToolsEntry.names (ts.map ToolInfo.name)
        ∧ methodsEntryOf (failingGithubListTools "github".data)
            = MethodsEntry.mk ts ts.length "✅ Available".data) :=
  aggregationIsolatesPerBackendFailures mcpServerIds failingGithubListTools
    "github".data (by decide)

/-! ## C5 -/

/-- C5 counterexample: one configured backend whose probe fails with an
exception whose text contains the check-mark character.  No backend is
reachable, yet the overall status is `"✅ Healthy"` — so the overall status
is neither `healthy` exactly when all backends are reachable, nor
`unhealthy` exactly when none are, nor a pure function of the per-backend
reachability booleans (the count at line 383-384 matches `"✅"` inside the
status strings, which an error message can spoof). -/
theorem healthOverallSpoofableCounterexample :
    (healthSummary ["github".data] spoofProbe).overallStatus = "✅ Healthy".data
    ∧ (∀ s ∈ ["github".data], isOkE (spoofProbe s) = false)
    ∧ (healthSummary ["github".data] spoofProbe).overallStatus
        ≠ "❌ Unhealthy".data := by
  decide

/-- C5 amended: provided no status string spoofs the check mark (every
check-marked entry really is a reachable backend), the overall status is
`"✅ Healthy"` exactly when every backend's probe succeeded (in particular
when there are none), `"⚠️ Partial"` exactly when at least one but not all
succeeded, and `"❌ Unhealthy"` exactly when there is at least one backend
and none succeeded. -/
theorem healthOverallFromReachability (servers : List (List Char))
    (probe : List Char → Except (List Char) Unit)
    (hclean : ∀ s ∈ servers, '✅' ∈ healthStatusOf (probe s) → isOkE (probe s) = true) :
    ((healthSummary servers probe).overallStatus = "✅ Healthy".data
      ↔ ∀ s ∈ servers, isOkE (probe s) = true)
    ∧ ((healthSummary servers probe).overallStatus = "⚠️ Partial".data
      ↔ ((∃ s ∈ servers, isOkE (probe s) = true)
          ∧ ¬ ∀ s ∈ servers, isOkE (probe s) = true))
    ∧ ((healthSummary servers probe).overallStatus = "❌ Unhealthy".data
      ↔ (servers ≠ [] ∧ ∀ s ∈ servers, isOkE (probe s) = false)) := by
  have hcount : healthyServersCount
        (List.map (fun s => (s, healthStatusOf (probe s))) servers)
      = servers.countP fun s => isOkE (probe s) := by
    unfold healthyServersCount
    rw [List.countP_map]
    refine List.countP_congr ?_
    intro s hsm
    simp only [Function.comp_apply, decide_eq_true_iff]
    constructor
    · exact hclean s hsm
    · intro hok
      cases hp : probe s with
      | ok u => cases u; decide
      | error e => rw [hp] at hok; simp [isOkE] at hok
  have hover : (healthSummary servers probe).overallStatus
      = overallStatusOf (servers.countP fun s => isOkE (probe s)) servers.length := by
    simp only [healthSummary, downstreamStatuses, List.length_map, hcount]
  have hkle : (servers.countP fun s => isOkE (probe s)) ≤ servers.length :=
    List.countP_le_length _
  have hAll : (∀ s ∈ servers, isOkE (probe s) = true)
      ↔ (servers.countP fun s => isOkE (probe s)) = servers.length :=
    List.countP_eq_length.symm
  have hEx : (∃ s ∈ servers, isOkE (probe s) = true)
      ↔ 0 < servers.countP fun s => isOkE (probe s) :=
    List.countP_pos_iff.symm
  have hNone : (∀ s ∈ servers, isOkE (probe s) = false)
      ↔ (servers.countP fun s => isOkE (probe s)) = 0 := by
    rw [List.countP_eq_zero]
    simp only [Bool.not_eq_true]
  have hne : servers ≠ [] ↔ servers.length ≠ 0 := by
    rw [ne_eq, ne_eq, ← List.length_eq_zero]
  rw [hover]
  unfold overallStatusOf
  by_cases h1 : (servers.countP fun s => isOkE (probe s)) = servers.length
  · rw [if_pos h1]
    refine ⟨iff_of_true rfl (hAll.mpr h1), ?_, ?_⟩
    · refine iff_of_false (by decide) ?_
      rintro ⟨_, hnot⟩
      exact hnot (hAll.mpr h1)
    · refine iff_of_false (by decide) ?_
      rintro ⟨hsne, hnone⟩
      have hk0 := hNone.mp hnone
      exact hne.mp hsne (by omega)
  · rw [if_neg h1]
    by_cases h2 : 0 < servers.countP fun s => isOkE (probe s)
    · rw [if_pos h2]
      refine ⟨iff_of_false (by decide) (fun hall => h1 (hAll.mp hall)),
        iff_of_true rfl ⟨hEx.mpr h2, fun hall => h1 (hAll.mp hall)⟩,
        iff_of_false (by decide) ?_⟩
      rintro ⟨_, hnone⟩
      have hk0 := hNone.mp hnone
      omega
    · rw [if_neg h2]
      have hk0 : (servers.countP fun s => isOkE (probe s)) = 0 := by omega
      refine ⟨iff_of_false (by decide) (fun hall => h1 (hAll.mp hall)),
        iff_of_false (by decide) (fun hpar => h2 (hEx.mp hpar.1)),
        iff_of_true rfl ⟨?_, hNone.mpr hk0⟩⟩
      intro hnil
      exact h1 (by rw [hk0, hnil]; rfl)

/-- C5 witness: three configured backends, `filesystem` reachable, the two
others failing with plain error texts — the overall status is
`"⚠️ Partial"`. -/
theorem healthOverallFromReachabilityWitness :
    ((healthSummary mcpServerIds partialProbe).overallStatus = "✅ Healthy".data
      ↔ ∀ s ∈ mcpServerIds, isOkE (partialProbe s) = true)
    ∧ ((healthSummary mcpServerIds partialProbe).overallStatus = "⚠️ Partial".data
      ↔ ((∃ s ∈ mcpServerIds, isOkE (partialProbe s) = true)
          ∧ ¬ ∀ s ∈ mcpServerIds, isOkE (partialProbe s) = true))
    ∧ ((healthSummary mcpServerIds partialProbe).overallStatus = "❌ Unhealthy".data
      ↔ (mcpServerIds ≠ []
          ∧ ∀ s ∈ mcpServerIds, isOkE (partialProbe s) = false)) :=
  healthOverallFromReachability mcpServerIds partialProbe (by decide)

/-! ## C10 -/

/-- C10: with no configured downstream backends, `health_check` still
produces a summary: the guarded `health_percentage` is `0` (no division by
zero is attempted) and the overall status is `"✅ Healthy"`. -/
theorem healthCheckEmptyBackends (probe : List Char → Except (List Char) Unit) :
    healthSummary [] probe
      = { healthyServers := 0, totalServers := 0, healthPercentage := 0,
          overallStatus := "✅ Healthy".data } := rfl

/-! ## C7 -/

/-- C7: an oracle decision naming a backend id outside the available list is
replaced by the configured default `"filesystem"`; one naming an operation
outside the chosen backend's advertised tool list is replaced by the first
advertised tool; a failed oracle call behaves the same; and a failed
argument reply yields the empty argument mapping — all computed from the
single oracle reply, with no second oracle query. -/
theorem decisionValidationFallsBack (reply : List Char)
    (availableServers : List (List Char)) (availableTools : List ToolInfo)
    (hserver : pyLower (pyStrip reply) ∉ availableServers)
    (htool : pyStrip reply ∉ availableTools.map ToolInfo.name) :
    chooseServer (Except.ok reply) availableServers = fallbackServer
    ∧ chooseTool (Except.ok reply) availableTools = availableTools.head?
    ∧ (∀ e, chooseServer (Except.error e) availableServers = fallbackServer
        ∧ chooseTool (Except.error e) availableTools = availableTools.head?)
    ∧ chooseArguments (Except.ok none) = []
    ∧ (∀ u, chooseArguments (Except.error u) = []) := by
  refine ⟨?_, ?_, fun e => ⟨rfl, rfl⟩, rfl, fun u => rfl⟩
  · simp only [chooseServer, if_neg hserver]
  · have hfind : availableTools.find? (fun t => decide (t.name = pyStrip reply))
        = none := by
      refine List.find?_eq_none.mpr ?_
      intro x hx
      simp only [decide_eq_true_iff]
      intro hEq
      exact htool (hEq ▸ List.mem_map_of_mem ToolInfo.name hx)
    simp only [chooseTool, hfind]

/-- C7 witness: the reply `"jira"` names neither an available backend nor an
advertised tool; the server choice falls back to `"filesystem"` and the
tool choice to the first advertised tool. -/
theorem decisionValidationFallsBackWitness :
    chooseServer (Except.ok "jira".data) ["github".data] = fallbackServer
    ∧ chooseTool (Except.ok "jira".data)
        [⟨"create_issue".data, "creates an issue".data, "{}".data⟩]
      = [(⟨"create_issue".data, "creates an issue".data, "{}".data⟩ : ToolInfo)].head?
    ∧ (∀ e, chooseServer (Except.error e) ["github".data] = fallbackServer
        ∧ chooseTool (Except.error e)
            [⟨"create_issue".data, "creates an issue".data, "{}".data⟩]
          = [(⟨"create_issue".data, "creates an issue".data, "{}".data⟩ : ToolInfo)].head?)
    ∧ chooseArguments (Except.ok none) = []
    ∧ (∀ u, chooseArguments (Except.error u) = []) :=
  decisionValidationFallsBack "jira".data ["github".data]
    [⟨"create_issue".data, "creates an issue".data, "{}".data⟩]
    (by decide) (by decide)

/-! ## C8 -/

/-- C8: when every configured backend fails discovery (its status carries no
availability mark, so the available-servers set is empty), the request flow
returns the definitive `"No servers available"` error and its invocation
trace is empty — no downstream tool call is performed. -/
theorem noBackendsAvailableTerminal {α : Type} (clients : List (List Char))
    (ping : List Char → Except (List Char) Unit)
    (serverOracle : Except (List Char) (List Char))
    (listTools : List Char → Except (List Char) (List ToolInfo))
    (toolOracle : Except (List Char) (List Char))
    (argsOracle : Except Unit (Option ArgsDict))
    (call : List Char → List Char → ArgsDict → Except (List Char) α)
    (hfail : ∀ s ∈ clients, '✅' ∉ discoverStatusOf (ping s)) :
    (∀ s ∈ clients, isOkE (ping s) = false)
    ∧ (discoverServers clients ping).availableServers = []
    ∧ processUserRequest clients ping serverOracle listTools toolOracle argsOracle call
        = (ProcessResult.error "No servers available".data, []) := by
  have hdown : ∀ s ∈ clients, isOkE (ping s) = false := by
    intro s hs
    cases hp : ping s with
    | ok u =>
      have hmark := hfail s hs
      rw [hp] at hmark
      cases u
      exact absurd (by decide) hmark
    | error e => rfl
  have hav : (discoverServers clients ping).availableServers = [] := by
    simp only [discoverServers]
    rw [List.map_eq_nil_iff, List.filter_eq_nil_iff]
    intro p hp
    obtain ⟨s, hs, rfl⟩ := List.mem_map.mp hp
    simp only [decide_eq_true_iff]
    exact hfail s hs
  refine ⟨hdown, hav, ?_⟩
  simp only [processUserRequest, hav, if_pos]

/-- C8 witness: all three orchestrator backends down with plain connection
errors; the flow ends in the `"No servers available"` error and the
invocation trace is empty, whatever the later-stage oracles would answer. -/
theorem noBackendsAvailableTerminalWitness :
    (∀ s ∈ orchestratorServerIds, isOkE (allDownPing s) = false)
    ∧ (discoverServers orchestratorServerIds allDownPing).availableServers = []
    ∧ processUserRequest orchestratorServerIds allDownPing
        (Except.ok "github".data) (fun _ => Except.ok [])
        (Except.ok "read_file".data) (Except.ok none)
        (fun _ _ _ => (Except.ok () : Except (List Char) Unit))
      = (ProcessResult.error "No servers available".data, []) :=
  noBackendsAvailableTerminal orchestratorServerIds allDownPing
    (Except.ok "github".data) (fun _ => Except.ok [])
    (Except.ok "read_file".data) (Except.ok none)
    (fun _ _ _ => (Except.ok () : Except (List Char) Unit))
    (by decide)

/-! ## C9 -/

/-- C9 counterexample: the proxy's registered tool surface has eight
operations, not four — `get_methods` (among others) is registered yet is
none of the four operations the claim allows. -/
theorem proxySurfaceNotFourOperations :
    "get_methods".data ∈ registeredProxyTools
    ∧ "get_methods".data ∉ specFourOperations
    ∧ registeredProxyTools.length = 8
    ∧ specFourOperations.length = 4 := by
  decide

/-- C9 amended: the proxy exposes the four operations the specification
names (`route_tool_call`, `list_all_tools`, `get_server_status`,
`list_proxy_config`) and exactly four more (`route_by_prefix`,
`get_methods`, `test_routing`, `health_check`): eight distinct registered
operations in all. -/
theorem proxySurfaceEightOperations :
    specFourOperations ⊆ registeredProxyTools
    ∧ registeredProxyTools.length = 8
    ∧ registeredProxyTools.Nodup
    ∧ ∀ t ∈ registeredProxyTools,
        t ∈ specFourOperations
        ∨ t ∈ ["route_by_prefix".data, "get_methods".data, "test_routing".data,
               "health_check".data] := by
  decide

end MCPProxy

